import Mathlib

/-!
Verification of the EdTech learning-marketplace core: course content model,
progress tracking, rating ledger, and purchase/payment reconciliation.
Definitions are shallow embeddings of the JavaScript controllers and mongoose
model methods; document-store reads/writes become explicit list lookups and
first-match replacements, external collaborators (Stripe) become function
parameters, and fallible paths (null dereferences in JS) return Option.
-/

namespace EdTech

/-- One (userId, rating) entry of a course's `courseRatings` array. -/
structure Rating where
  userId : String
  rating : ℤ
deriving DecidableEq

/-- A lecture document embedded in a chapter (`chapterContent` entries). -/
structure Lecture where
  lectureId : String
  lectureTitle : String
  lectureDuration : ℕ
  lectureUrl : String
  isPreviewFree : Bool
  lectureOrder : ℤ
deriving DecidableEq

/-- A chapter document embedded in a course (`courseContent` entries). -/
structure Chapter where
  chapterId : String
  chapterTitle : String
  chapterOrder : ℤ
  chapterContent : List Lecture
deriving DecidableEq

/-- A course document.  `enrolledStudents` holds user ids: mongoose casts the
user documents pushed by the webhook handler to their `_id` per the schema
ref. -/
structure Course where
  id : String
  courseTitle : String
  coursePrice : ℚ
  discount : ℚ
  educator : String
  courseContent : List Chapter
  courseRatings : List Rating
  enrolledStudents : List String
deriving DecidableEq

/-- A user document (`models/User.js`): id plus the enrolled-course id list. -/
structure User where
  id : String
  enrolledCourses : List String
deriving DecidableEq

/-- Purchase lifecycle status, the string field `status` of a Purchase. -/
inductive PurchaseStatus where
  | pending
  | completed
  | failed
deriving DecidableEq

/-- A purchase record as created by `purchaseCourse`. -/
structure Purchase where
  id : String
  courseId : String
  userId : String
  amount : ℚ
  status : PurchaseStatus
deriving DecidableEq

/-- A progress record as the user/learning controllers store it
(`CourseProgress` with field `lectureCompleted`). -/
structure UserProgress where
  userId : String
  courseId : String
  lectureCompleted : List String
deriving DecidableEq

/-- A progress record of the `CourseProgress` mongoose model
(`models/CourseProgress.js`), with the `completedLectures` field spelling,
a last-accessed timestamp and the cached percentage. -/
structure CourseProgressRecord where
  userId : String
  courseId : String
  completedLectures : List String
  lastAccessed : ℕ
  completionPercentage : ℤ
deriving DecidableEq

/-- Embeds `Course.findById`: first course in the store with the given id. -/
def findCourse (courses : List Course) (id : String) : Option Course :=
  courses.find? (fun c => c.id == id)

/-- Embeds `User.findById`: first user in the store with the given id. -/
def findUser (users : List User) (id : String) : Option User :=
  users.find? (fun u => u.id == id)

/-- Embeds `Purchase.findById`: first purchase in the store with the given id. -/
def findPurchase (purchases : List Purchase) (id : String) : Option Purchase :=
  purchases.find? (fun p => p.id == id)

/-- Embeds `CourseProgress.findOne` on the (userId, courseId) key: first matching record. -/
def findProgress (store : List UserProgress) (userId courseId : String) :
    Option UserProgress :=
  store.find? (fun r => r.userId == userId && r.courseId == courseId)

/-- Embeds `course.save()`: write the mutated course document back over the stored
document with the same id (first match). -/
def saveCourse (courses : List Course) (c : Course) : List Course :=
  match courses with
  | [] => []
  | x :: rest => if x.id == c.id then c :: rest else x :: saveCourse rest c

/-- Embeds `user.save()`: write the mutated user document back (first id match). -/
def saveUser (users : List User) (u : User) : List User :=
  match users with
  | [] => []
  | x :: rest => if x.id == u.id then u :: rest else x :: saveUser rest u

/-- Embeds `purchase.save()`: write the mutated purchase back (first id match). -/
def savePurchase (purchases : List Purchase) (p : Purchase) : List Purchase :=
  match purchases with
  | [] => []
  | x :: rest => if x.id == p.id then p :: rest else x :: savePurchase rest p

/-- Embeds `progressData.save()`: write the mutated progress record back over the
stored record with the same (userId, courseId) key (first match). -/
def saveProgress (userId courseId : String) (r : UserProgress) :
    List UserProgress → List UserProgress
  | [] => []
  | x :: rest =>
    if x.userId == userId && x.courseId == courseId then r :: rest
    else x :: saveProgress userId courseId r rest

/-- The per-lecture step of `getCourseById`'s forEach: blank `lectureUrl`
when the lecture is not a free preview and the viewer is not enrolled. -/
def blankLecture (isEnrolled : Bool) (l : Lecture) : Lecture :=
  if !l.isPreviewFree && !isEnrolled then { l with lectureUrl := "" } else l

/-- Embeds the `contentController.getCourseById` viewer transformation: blank the
non-free lecture URLs for non-enrolled viewers, then sort chapters by
`chapterOrder` and each chapter's lectures by `lectureOrder` (JS stable
ascending sort = stable merge sort). -/
def getCourseById (c : Course) (isEnrolled : Bool) : Course :=
  let blanked := c.courseContent.map
    (fun ch => { ch with chapterContent := ch.chapterContent.map (blankLecture isEnrolled) })
  let sortLectures := fun (ch : Chapter) =>
    { ch with chapterContent := ch.chapterContent.mergeSort (fun a b => decide (a.lectureOrder ≤ b.lectureOrder)) }
  let sortedChapters :=
    (blanked.mergeSort (fun a b => decide (a.chapterOrder ≤ b.chapterOrder))).map sortLectures
  { c with courseContent := sortedChapters }

/-- Embeds `learningController.getCourseWithPreview`: blanks every non-free-preview
lecture URL unconditionally (this endpoint has no enrollment input). -/
def getCourseWithPreview (c : Course) : Course :=
  let blankAll := fun (l : Lecture) =>
    if !l.isPreviewFree then { l with lectureUrl := "" } else l
  let blanked := c.courseContent.map
    (fun ch => { ch with chapterContent := ch.chapterContent.map blankAll })
  { c with courseContent := blanked }

/-- All lectures of a course, chapter by chapter. -/
def lecturesOf (c : Course) : List Lecture :=
  c.courseContent.flatMap (fun ch => ch.chapterContent)

/-- One host alternative of the `isValidVideoUrl` regexes
`^(https?://)?(www\.)?host/.+$` over the character sequence of the string:
optional scheme, optional `www.`, the host, a slash, then at least one
character, none of which is a line terminator (JS `.` excludes \n, \r,
U+2028, U+2029 and `$` anchors the end of input). -/
def matchesHostPattern (url host : String) : Bool :=
  let s0 := url.data
  let s1 := if List.isPrefixOf "https://".data s0 then s0.drop 8
            else if List.isPrefixOf "http://".data s0 then s0.drop 7 else s0
  let s2 := if List.isPrefixOf "www.".data s1 then s1.drop 4 else s1
  let hostSlash := (host ++ "/").data
  let rest := s2.drop hostSlash.length
  List.isPrefixOf hostSlash s2 && rest.length > 0 &&
    rest.all (fun ch => ch ≠ Char.ofNat 10 && ch ≠ Char.ofNat 13 &&
      ch ≠ Char.ofNat 8232 && ch ≠ Char.ofNat 8233)

/-- Embeds `isValidVideoUrl`: the YouTube regex (hosts `youtube.com`, `youtu.be`)
or the Vimeo regex (host `vimeo.com`). -/
def isValidVideoUrl (url : String) : Bool :=
  matchesHostPattern url "youtube.com" || matchesHostPattern url "youtu.be" ||
    matchesHostPattern url "vimeo.com"

/-- The lecture payload of an `addLecture` request (`lectureData`). -/
structure LectureData where
  lectureId : String
  lectureTitle : String
  lectureDuration : ℕ
  lectureUrl : String
  isPreviewFree : Bool
deriving DecidableEq

/-- Embeds the order maximum, `Math.max` over the chapter lecture orders, guarded by the
emptiness check: 0 for an empty chapter, else the maximum lecture order. -/
def maxLectureOrder (ch : Chapter) : ℤ :=
  match ch.chapterContent.map (fun l => l.lectureOrder) with
  | [] => 0
  | x :: xs => xs.foldl max x

/-- Append a lecture to the first chapter with the given id (the JS code
mutates `courseContent[chapterIndex]`, the first `findIndex` match). -/
def pushLectureFirst (chapters : List Chapter) (chapterId : String) (l : Lecture) :
    List Chapter :=
  match chapters with
  | [] => []
  | ch :: rest =>
    if ch.chapterId == chapterId then
      { ch with chapterContent := ch.chapterContent ++ [l] } :: rest
    else ch :: pushLectureFirst rest chapterId l

/-- Outcome of `contentController.addLecture`. -/
inductive AddLectureOutcome where
  | courseNotFound
  | unauthorized
  | chapterNotFound
  | invalidVideoUrl
  | added (newLecture : Lecture)
deriving DecidableEq

/-- Embeds `contentController.addLecture`: find the course, check the educator,
find the chapter, validate the video URL, then append the new lecture with
order = (max existing order in the chapter, default 0) + 1 and save. -/
def addLecture (educatorId courseId chapterId : String) (lectureData : LectureData)
    (courses : List Course) : AddLectureOutcome × List Course :=
  match findCourse courses courseId with
  | none => (.courseNotFound, courses)
  | some course =>
    if course.educator ≠ educatorId then (.unauthorized, courses)
    else
      match course.courseContent.find? (fun ch => ch.chapterId == chapterId) with
      | none => (.chapterNotFound, courses)
      | some chapter =>
        if lectureData.lectureUrl = "" ∨ isValidVideoUrl lectureData.lectureUrl = false then
          (.invalidVideoUrl, courses)
        else
          let newLecture : Lecture :=
            { lectureId := lectureData.lectureId
              lectureTitle := lectureData.lectureTitle
              lectureDuration := lectureData.lectureDuration
              lectureUrl := lectureData.lectureUrl
              isPreviewFree := lectureData.isPreviewFree
              lectureOrder := maxLectureOrder chapter + 1 }
          let course2 := { course with
            courseContent := pushLectureFirst course.courseContent chapterId newLecture }
          (.added newLecture, saveCourse courses course2)

/-- Response message of `updateUserCourseProgress`. -/
inductive ProgressMsg where
  | alreadyCompleted
  | progressUpdated
deriving DecidableEq

/-- Embeds `updateUserCourseProgress` (the markComplete operation): if a record
exists and already lists the lecture, answer "Lecture Already Completed"
without saving; otherwise push the lecture and save, or create a fresh
record holding just this lecture. -/
def updateUserCourseProgress (userId courseId lectureId : String)
    (store : List UserProgress) : ProgressMsg × List UserProgress :=
  match findProgress store userId courseId with
  | some progressData =>
    if lectureId ∈ progressData.lectureCompleted then (.alreadyCompleted, store)
    else
      (.progressUpdated,
        saveProgress userId courseId
          { progressData with
            lectureCompleted := progressData.lectureCompleted ++ [lectureId] } store)
  | none => (.progressUpdated, store ++ [⟨userId, courseId, [lectureId]⟩])

/-- One markComplete call folded over a store, for replaying a sequence of
calls (`(userId, courseId, lectureId)` triples). -/
def markStep (store : List UserProgress) (call : String × String × String) :
    List UserProgress :=
  (updateUserCourseProgress call.1 call.2.1 call.2.2 store).2

/-- Response envelope of `getUserCourseProgress`: `{success, progressData}`
where `progressData` is whatever `findOne` produced (null when absent). -/
structure ProgressResponse where
  success : Bool
  progressData : Option UserProgress
deriving DecidableEq

/-- Embeds `getUserCourseProgress`: look the record up and answer success with the
lookup result as the payload. -/
def getUserCourseProgress (userId courseId : String) (store : List UserProgress) :
    ProgressResponse :=
  { success := true, progressData := findProgress store userId courseId }

/-- Embeds `CourseProgress.methods.markLectureAsComplete`: push the lecture and
touch `lastAccessed` (the current time `now`) unless already present;
the Bool reports whether the lecture was added. -/
def markLectureAsComplete (now : ℕ) (lectureId : String)
    (r : CourseProgressRecord) : Bool × CourseProgressRecord :=
  if lectureId ∈ r.completedLectures then (false, r)
  else
    (true, { r with completedLectures := r.completedLectures ++ [lectureId],
                    lastAccessed := now })

/-- Total lecture count of a course: the forEach accumulation of
`chapterContent.length` over `courseContent`. -/
def totalLecturesOf (course : Course) : ℕ :=
  course.courseContent.foldl (fun acc ch => acc + ch.chapterContent.length) 0

/-- Embeds `CourseProgress.methods.calculateCompletionPercentage`: 0 when the course
is absent or has no lectures; otherwise `Math.round` of the completed share
times 100, cached on the record.  The course is re-read live, so the total
is the course's lecture count at computation time. -/
def calculateCompletionPercentage (r : CourseProgressRecord)
    (course? : Option Course) : ℤ × CourseProgressRecord :=
  match course? with
  | none => (0, r)
  | some course =>
    let totalLectures := totalLecturesOf course
    if totalLectures = 0 then (0, r)
    else
      let pct : ℤ := round ((r.completedLectures.length : ℚ) / totalLectures * 100)
      (pct, { r with completionPercentage := pct })

/-- Outcome of `addUserRating`. -/
inductive RatingOutcome where
  | invalidDetails
  | courseNotFound
  | notPurchased
  | ratingAdded
deriving DecidableEq

/-- The rating upsert of `addUserRating`: overwrite the first entry with the
caller's userId (`findIndex` match), else push a new `{userId, rating}`. -/
def upsertRatingList (ratings : List Rating) (userId : String) (rating : ℤ) :
    List Rating :=
  match ratings with
  | [] => [⟨userId, rating⟩]
  | r :: rest =>
    if r.userId == userId then { r with rating := rating } :: rest
    else r :: upsertRatingList rest userId rating

/-- Embeds `addUserRating`: the falsy/range validation
(`!courseId || !userId || !rating || rating < 1 || rating > 5`) runs before
any lookup; then course lookup, enrollment check, upsert and save. -/
def addUserRating (userId courseId : String) (rating : ℤ)
    (courses : List Course) (users : List User) : RatingOutcome × List Course :=
  if courseId = "" ∨ userId = "" ∨ rating = 0 ∨ rating < 1 ∨ rating > 5 then
    (.invalidDetails, courses)
  else
    match findCourse courses courseId with
    | none => (.courseNotFound, courses)
    | some course =>
      match findUser users userId with
      | none => (.notPurchased, courses)
      | some user =>
        if courseId ∈ user.enrolledCourses then
          (.ratingAdded,
            saveCourse courses
              { course with courseRatings := upsertRatingList course.courseRatings userId rating })
        else (.notPurchased, courses)

/-- JS `Number.prototype.toFixed(2)` on the exact value: round to the nearest
hundredth, ties toward the larger candidate (Mathlib `round`agrees). -/
def round2 (x : ℚ) : ℚ := (round (100 * x) : ℚ) / 100

/-- Outcome of `purchaseCourse`: the Data Not Found envelope, or the created
purchase together with the `unit_amount` (in cents) the Stripe line item
carries, `Math.floor(amount) * 100`. -/
inductive PurchaseOutcome where
  | dataNotFound
  | ok (newPurchase : Purchase) (unitAmount : ℤ)
deriving DecidableEq

/-- The store `purchaseCourse` reads: users and courses. -/
structure PaymentStore where
  users : List User
  courses : List Course
deriving DecidableEq

/-- Embeds `paymentController.purchaseCourse`: require both user and course, record
amount = toFixed2(price − discount·price/100) on a pending purchase
(`Purchase.create` picks the fresh id `newId`), and build the Stripe line
item whose `unit_amount` is `Math.floor(amount) * 100`. -/
def purchaseCourse (userId courseId newId : String) (st : PaymentStore) :
    PurchaseOutcome :=
  match findCourse st.courses courseId, findUser st.users userId with
  | some courseData, some _ =>
    let amount := round2 (courseData.coursePrice - courseData.discount * courseData.coursePrice / 100)
    let newPurchase : Purchase :=
      { id := newId, courseId := courseData.id, userId := userId,
        amount := amount, status := .pending }
    .ok newPurchase (⌊newPurchase.amount⌋ * 100)
  | _, _ => .dataNotFound

/-- A Stripe event as the webhook handler reads it: `event.type` and
`event.data.object.id` (the payment-intent id). -/
structure StripeEvent where
  type : String
  objectId : String
deriving DecidableEq

/-- The webhook handler's reply: the HTTP 400 `Webhook Error` rejection on
signature failure, or the `{received: true}` acknowledgement. -/
inductive WebhookResponse where
  | badRequest (msg : String)
  | ack
deriving DecidableEq

/-- The records the webhook handler can touch. -/
structure WebhookState where
  purchases : List Purchase
  users : List User
  courses : List Course
deriving DecidableEq

/-- Embeds `paymentController.stripeWebhooks`.  `constructEvent` is the result of
Stripe's signature verification (`Except.error` when it throws);  `sessions`
resolves a payment-intent id to the checkout session's `purchaseId` metadata
(`stripe.checkout.sessions.list`).  A `none` result is the unhandled JS crash
on a null lookup.  On a succeeded event the handler pushes the user onto the
course's `enrolledStudents`, pushes the course onto the user's
`enrolledCourses` and sets the status to completed — without ever checking
the purchase's current status. -/
def stripeWebhooks (constructEvent : Except String StripeEvent)
    (sessions : String → Option String) (st : WebhookState) :
    Option (WebhookResponse × WebhookState) :=
  match constructEvent with
  | .error err => some (.badRequest ("Webhook Error: " ++ err), st)
  | .ok event =>
    if event.type = "payment_intent.succeeded" then
      match sessions event.objectId with
      | none => none
      | some purchaseId =>
        match findPurchase st.purchases purchaseId with
        | none => none
        | some purchaseData =>
          match findUser st.users purchaseData.userId,
                findCourse st.courses purchaseData.courseId with
          | some userData, some courseData =>
            let courseData2 :=
              { courseData with enrolledStudents := courseData.enrolledStudents ++ [userData.id] }
            let userData2 :=
              { userData with enrolledCourses := userData.enrolledCourses ++ [courseData.id] }
            let purchaseData2 := { purchaseData with status := .completed }
            some (.ack,
              { purchases := savePurchase st.purchases purchaseData2,
                users := saveUser st.users userData2,
                courses := saveCourse st.courses courseData2 })
          | _, _ => none
    else if event.type = "payment_intent.payment_failed" then
      match sessions event.objectId with
      | none => none
      | some purchaseId =>
        match findPurchase st.purchases purchaseId with
        | none => none
        | some purchaseData =>
          some (.ack,
            { st with purchases := savePurchase st.purchases { purchaseData with status := .failed } })
    else some (.ack, st)

/-! Concrete records used to exercise the payment reconciler. -/

/-- A user already enrolled in course_123 (state after the first successful
delivery of the payment-succeeded webhook). -/
def replayUser : User := ⟨"user_123", ["course_123"]⟩

/-- The purchased course, already listing user_123 once. -/
def replayCourse : Course :=
  ⟨"course_123", "JavaScript Fundamentals", 9999/100, 20, "educator_123", [], [],
    ["user_123"]⟩

/-- The purchase, already in the terminal `completed` state. -/
def replayPurchase : Purchase :=
  ⟨"purchase_123", "course_123", "user_123", 7999/100, .completed⟩

/-- Store state after the first delivery: enrolled once, purchase completed. -/
def replayState : WebhookState := ⟨[replayPurchase], [replayUser], [replayCourse]⟩

/-- The re-delivered payment-succeeded event. -/
def replayEvent : StripeEvent := ⟨"payment_intent.succeeded", "pi_123456"⟩

/-- The checkout-session metadata lookup correlating the payment intent with
purchase_123. -/
def replaySessions : String → Option String :=
  fun paymentIntentId =>
    if paymentIntentId == "pi_123456" then some "purchase_123" else none

/-- The state the handler produces on the re-delivered event: the user and
course enrollment entries are appended a second time. -/
def replayResultState : WebhookState :=
  ⟨[⟨"purchase_123", "course_123", "user_123", 7999/100, .completed⟩],
   [⟨"user_123", ["course_123", "course_123"]⟩],
   [⟨"course_123", "JavaScript Fundamentals", 9999/100, 20, "educator_123", [], [],
     ["user_123", "user_123"]⟩]⟩

/-- Claim C1 (code evaluated at the failing input): re-delivering the
payment-succeeded webhook event for a purchase already in the terminal
`completed` state is not the no-op the claim demands. The handler never
checks the purchase status: it appends user_123 to the course's
enrolled-students a second time (set size 2, not 1) and appends course_123
to the user's enrolled-courses a second time; only the status, rewritten to
its old value `completed`, stays as it was. -/
theorem stripeWebhooks_replay_duplicates_enrollment :
    stripeWebhooks (Except.ok replayEvent) replaySessions replayState =
      some (WebhookResponse.ack, replayResultState) ∧
    replayState.courses.map Course.enrolledStudents = [["user_123"]] ∧
    replayResultState.courses.map Course.enrolledStudents = [["user_123", "user_123"]] ∧
    replayResultState.users.map User.enrolledCourses = [["course_123", "course_123"]] ∧
    replayResultState.purchases.map Purchase.status = [PurchaseStatus.completed] :=
  ⟨rfl, by decide, by decide, by decide, by decide⟩

/-- Claim C9: on a webhook whose signature verification throws, the handler
fails closed: it answers with the distinct HTTP 400 `Webhook Error`
rejection (not the generic envelope and not the acknowledgement), and the
returned store state is exactly the input state — no purchase, user or
course record changes. -/
theorem stripeWebhooks_invalid_signature_fails_closed :
    (∀ (err : String) (sessions : String → Option String) (st : WebhookState),
      stripeWebhooks (Except.error err) sessions st =
        some (WebhookResponse.badRequest ("Webhook Error: " ++ err), st)) ∧
    (∀ msg, WebhookResponse.badRequest msg ≠ WebhookResponse.ack) :=
  ⟨fun _ _ _ => rfl, fun _ h => WebhookResponse.noConfusion h⟩

/-- Claim C7 (counterexample): for a (user, course) pair with no progress
record, `getUserCourseProgress` does answer success, but the payload it
carries is null (`none`) — not a defaults record with an empty completed
set — so the claim's "carrying empty/zero defaults" fails on the empty
store. -/
theorem getUserCourseProgress_no_defaults_counterexample :
    (getUserCourseProgress "user_123" "course_123" []).success = true ∧
    (getUserCourseProgress "user_123" "course_123" []).progressData = none ∧
    ¬ ∃ r : UserProgress,
        (getUserCourseProgress "user_123" "course_123" []).progressData = some r ∧
        r.lectureCompleted = [] :=
  ⟨rfl, rfl, fun ⟨_, h, _⟩ => Option.noConfusion h⟩

/-- Claim C7 (amended): for every (userId, courseId) pair with no existing
progress record, `getUserCourseProgress` returns a success result whose
`progressData` payload is null (no defaults object), and it never returns
an error envelope (success is always true, for every store). -/
theorem getUserCourseProgress_missing_record_success_null :
    ∀ (store : List UserProgress) (userId courseId : String),
      (getUserCourseProgress userId courseId store).success = true ∧
      (findProgress store userId courseId = none →
        getUserCourseProgress userId courseId store = ⟨true, none⟩) :=
  fun store userId courseId =>
    ⟨rfl, fun h => by simp [getUserCourseProgress, h]⟩

/-- Witness for C7's amended theorem at the empty store. -/
theorem getUserCourseProgress_missing_record_success_null_witness :
    getUserCourseProgress "user_123" "course_123" [] = ⟨true, none⟩ :=
  (getUserCourseProgress_missing_record_success_null [] "user_123" "course_123").2 rfl

/-- Claim C8: for every rating outside the inclusive range [1,5] (whatever
the caller, course, and stores), `addUserRating` answers the InValid
Details envelope and returns the course store untouched — the validation
runs before any lookup, so no rating entry is added or modified and no
save happens. -/
theorem addUserRating_out_of_range_invalid
    (userId courseId : String) (rating : ℤ)
    (courses : List Course) (users : List User)
    (h : rating < 1 ∨ rating > 5) :
    addUserRating userId courseId rating courses users =
      (RatingOutcome.invalidDetails, courses) := by
  unfold addUserRating
  rw [if_pos (Or.inr (Or.inr (Or.inr h)))]

/-- Witness for C8 at ratings 0 and 6 on a store holding a course with an
empty ratings list. -/
theorem addUserRating_out_of_range_invalid_witness :
    addUserRating "user_123" "course_123" 0
        [⟨"course_123", "JS", 4999/100, 0, "educator_123", [], [], ["user_123"]⟩]
        [⟨"user_123", ["course_123"]⟩] =
      (RatingOutcome.invalidDetails,
        [⟨"course_123", "JS", 4999/100, 0, "educator_123", [], [], ["user_123"]⟩]) ∧
    addUserRating "user_123" "course_123" 6
        [⟨"course_123", "JS", 4999/100, 0, "educator_123", [], [], ["user_123"]⟩]
        [⟨"user_123", ["course_123"]⟩] =
      (RatingOutcome.invalidDetails,
        [⟨"course_123", "JS", 4999/100, 0, "educator_123", [], [], ["user_123"]⟩]) :=
  ⟨addUserRating_out_of_range_invalid _ _ _ _ _ (Or.inl (by norm_num)),
   addUserRating_out_of_range_invalid _ _ _ _ _ (Or.inr (by norm_num))⟩

/-- A user with no enrollments yet, for exercising the purchase flow. -/
def sampleUser : User := ⟨"user_123", []⟩

/-- The 99.99-priced course with a 20 percent discount. -/
def sampleCourse99 : Course :=
  ⟨"course_123", "JavaScript Fundamentals", 9999/100, 20, "educator_123", [], [], []⟩

/-- Payment store holding exactly the sample user and course. -/
def sampleStore : PaymentStore := ⟨[sampleUser], [sampleCourse99]⟩

/-- Claim C5: whenever user and course are both present, `purchaseCourse`
creates the purchase with status pending and amount equal to the two-decimal
rounding of price − price·discount/100; in particular price 99.99 with
discount 20 yields amount 79.99. -/
theorem purchaseCourse_amount_round2_pending
    (userId courseId newId : String) (st : PaymentStore) (c : Course) (u : User)
    (hc : findCourse st.courses courseId = some c)
    (hu : findUser st.users userId = some u) :
    purchaseCourse userId courseId newId st =
      PurchaseOutcome.ok
        ⟨newId, c.id, userId,
          round2 (c.coursePrice - c.coursePrice * c.discount / 100), .pending⟩
        (⌊round2 (c.coursePrice - c.coursePrice * c.discount / 100)⌋ * 100) ∧
    round2 ((9999 : ℚ)/100 - (9999 : ℚ)/100 * 20 / 100) = 7999/100 := by
  constructor
  · have hcomm : c.coursePrice - c.discount * c.coursePrice / 100
        = c.coursePrice - c.coursePrice * c.discount / 100 := by ring
    unfold purchaseCourse
    rw [hc, hu]
    dsimp only
    rw [hcomm]
  · norm_num [round2, round_eq]

/-- Witness for C5 on the 99.99/20 sample store. -/
theorem purchaseCourse_amount_round2_pending_witness :
    purchaseCourse "user_123" "course_123" "purchase_123" sampleStore =
      PurchaseOutcome.ok
        ⟨"purchase_123", "course_123", "user_123", 7999/100, .pending⟩ 7900 := by
  have h := purchaseCourse_amount_round2_pending "user_123" "course_123" "purchase_123"
    sampleStore sampleCourse99 sampleUser rfl rfl
  rw [h.1]
  have hprice : sampleCourse99.coursePrice = 9999/100 := rfl
  have hdisc : sampleCourse99.discount = 20 := rfl
  have hid : sampleCourse99.id = "course_123" := rfl
  rw [hprice, hdisc, hid, h.2]
  norm_num

/-- Claim C6: the unit amount handed to the checkout session is
`Math.floor(amount) * 100` cents, so whenever the recorded purchase amount
has nonzero cents the checkout unit amount is strictly below the recorded
amount expressed in cents. -/
theorem purchaseCourse_unitAmount_floor_lt
    (userId courseId newId : String) (st : PaymentStore)
    (p : Purchase) (unitAmount : ℤ)
    (hok : purchaseCourse userId courseId newId st =
      PurchaseOutcome.ok p unitAmount) :
    unitAmount = ⌊p.amount⌋ * 100 ∧
    (Int.fract p.amount ≠ 0 → (unitAmount : ℚ) < 100 * p.amount) := by
  have hmain : unitAmount = ⌊p.amount⌋ * 100 := by
    unfold purchaseCourse at hok
    cases hfc : findCourse st.courses courseId with
    | none => rw [hfc] at hok; exact absurd hok (by simp)
    | some c =>
      cases hfu : findUser st.users userId with
      | none => rw [hfc, hfu] at hok; exact absurd hok (by simp)
      | some u =>
        rw [hfc, hfu] at hok
        injection hok with h1 h2
        rw [← h1, ← h2]
  refine ⟨hmain, fun hfr => ?_⟩
  have hpos : 0 < Int.fract p.amount :=
    lt_of_le_of_ne (Int.fract_nonneg _) (Ne.symm hfr)
  have hsub := Int.self_sub_floor p.amount
  have hlt : (⌊p.amount⌋ : ℚ) < p.amount := by linarith
  have h100 : (⌊p.amount⌋ : ℚ) * 100 < p.amount * 100 :=
    mul_lt_mul_of_pos_right hlt (by norm_num)
  calc (unitAmount : ℚ) = (⌊p.amount⌋ : ℚ) * 100 := by rw [hmain]; push_cast; ring
    _ < p.amount * 100 := h100
    _ = 100 * p.amount := by ring

/-- Witness for C6: on the sample purchase of amount 79.99 the checkout unit
amount 7900 cents is strictly below 7999 cents. -/
theorem purchaseCourse_unitAmount_floor_lt_witness :
    ((7900 : ℤ) : ℚ) < 100 * ((7999 : ℚ)/100) := by
  have hok : purchaseCourse "user_123" "course_123" "purchase_123" sampleStore =
      PurchaseOutcome.ok
        ⟨"purchase_123", "course_123", "user_123", 7999/100, .pending⟩ 7900 := by
    have hfc : findCourse sampleStore.courses "course_123" = some sampleCourse99 := rfl
    have hfu : findUser sampleStore.users "user_123" = some sampleUser := rfl
    unfold purchaseCourse
    rw [hfc, hfu]
    dsimp only
    have hprice : sampleCourse99.coursePrice = 9999/100 := rfl
    have hdisc : sampleCourse99.discount = 20 := rfl
    have hid : sampleCourse99.id = "course_123" := rfl
    rw [hprice, hdisc, hid]
    norm_num [round2, round_eq]
  have h := purchaseCourse_unitAmount_floor_lt "user_123" "course_123" "purchase_123"
    sampleStore _ _ hok
  exact h.2 (by norm_num [Int.fract])

/-- A progress record with two completed lectures. -/
def sampleProgress2of3 : CourseProgressRecord :=
  ⟨"user_123", "course_123", ["lecture_1", "lecture_2"], 0, 0⟩

/-- A course whose single chapter currently holds three lectures. -/
def sampleCourse3Lectures : Course :=
  ⟨"course_123", "JavaScript Fundamentals", 4999/100, 0, "educator_123",
    [⟨"chapter_1", "Introduction", 1,
      [⟨"lecture_1", "A", 15, "https://youtube.com/watch?v=1", true, 1⟩,
       ⟨"lecture_2", "B", 10, "https://youtube.com/watch?v=2", false, 2⟩,
       ⟨"lecture_3", "C", 12, "https://youtube.com/watch?v=3", false, 3⟩]⟩],
    [], []⟩

/-- The same course after all lectures were removed. -/
def sampleCourseNoLectures : Course :=
  ⟨"course_123", "JavaScript Fundamentals", 4999/100, 0, "educator_123",
    [⟨"chapter_1", "Introduction", 1, []⟩], [], []⟩

/-- Claim C4: the completion percentage is round(100·|completed|/total) where
total is the live course's lecture count at the time of computation (the
course is re-read, so after removing lectures the new, smaller total is
used), and a course with zero lectures yields 0 with no division. -/
theorem calculateCompletionPercentage_live_total
    (r : CourseProgressRecord) (course : Course) :
    (calculateCompletionPercentage r (some course)).1 =
      (if totalLecturesOf course = 0 then 0
       else round (100 * (r.completedLectures.length : ℚ) / (totalLecturesOf course : ℚ))) ∧
    (totalLecturesOf course = 0 → (calculateCompletionPercentage r (some course)).1 = 0) := by
  have hmain : (calculateCompletionPercentage r (some course)).1 =
      (if totalLecturesOf course = 0 then 0
       else round (100 * (r.completedLectures.length : ℚ) / (totalLecturesOf course : ℚ))) := by
    unfold calculateCompletionPercentage
    dsimp only
    split_ifs with h
    · rfl
    · ring_nf
  exact ⟨hmain, fun h => by rw [hmain, if_pos h]⟩

/-- Witness for C4: 2 of 3 lectures completed gives 67 percent, and the same
record against the lecture-less course recomputes to 0. -/
theorem calculateCompletionPercentage_live_total_witness :
    (calculateCompletionPercentage sampleProgress2of3 (some sampleCourse3Lectures)).1 = 67 ∧
    (calculateCompletionPercentage sampleProgress2of3 (some sampleCourseNoLectures)).1 = 0 := by
  constructor
  · rw [(calculateCompletionPercentage_live_total sampleProgress2of3 sampleCourse3Lectures).1]
    have ht : totalLecturesOf sampleCourse3Lectures = 3 := rfl
    have hl : sampleProgress2of3.completedLectures.length = 2 := rfl
    rw [ht, hl]
    norm_num [round_eq]
  · exact (calculateCompletionPercentage_live_total sampleProgress2of3 sampleCourseNoLectures).2 rfl

/-- Every record of a store written back through `saveProgress` is either the
new record or one of the old ones. -/
theorem mem_saveProgress (u c : String) (rNew : UserProgress) :
    ∀ (store : List UserProgress) (x : UserProgress),
      x ∈ saveProgress u c rNew store → x = rNew ∨ x ∈ store
  | [], x, h => by simp [saveProgress] at h
  | y :: rest, x, h => by
    by_cases hy : (y.userId == u && y.courseId == c) = true
    · rw [saveProgress, if_pos hy] at h
      rcases List.mem_cons.mp h with h1 | h1
      · exact Or.inl h1
      · exact Or.inr (List.mem_cons.mpr (Or.inr h1))
    · rw [saveProgress, if_neg hy] at h
      rcases List.mem_cons.mp h with h1 | h1
      · exact Or.inr (by simp [h1])
      · rcases mem_saveProgress u c rNew rest x h1 with h2 | h2
        · exact Or.inl h2
        · exact Or.inr (List.mem_cons.mpr (Or.inr h2))

/-- One markComplete call keeps every stored completed-lectures list free of
duplicates. -/
theorem updateUserCourseProgress_preserves_nodup
    (u c lec : String) (store : List UserProgress)
    (h : ∀ r ∈ store, r.lectureCompleted.Nodup) :
    ∀ r ∈ (updateUserCourseProgress u c lec store).2, r.lectureCompleted.Nodup := by
  intro r hr
  unfold updateUserCourseProgress at hr
  cases hfind : findProgress store u c with
  | none =>
    rw [hfind] at hr
    dsimp only at hr
    rcases List.mem_append.mp hr with h1 | h1
    · exact h r h1
    · simp only [List.mem_singleton] at h1
      subst h1
      simp
  | some pd =>
    rw [hfind] at hr
    dsimp only at hr
    by_cases hmem : lec ∈ pd.lectureCompleted
    · rw [if_pos hmem] at hr
      exact h r hr
    · rw [if_neg hmem] at hr
      dsimp only at hr
      rcases mem_saveProgress _ _ _ _ _ hr with h1 | h1
      · subst h1
        have hpd : pd ∈ store := List.mem_of_find?_eq_some hfind
        have hnd : pd.lectureCompleted.Nodup := h pd hpd
        simp only [List.nodup_append, List.nodup_singleton, true_and,
          List.disjoint_singleton]
        exact ⟨hnd, hmem⟩
      · exact h r h1

/-- Claim C3: markComplete is idempotent — a lecture already in the completed
set answers "already completed" and leaves the store untouched (no save), the
model method likewise reports false without mutation, and any sequence of
markComplete calls keeps every completed-lectures list duplicate-free. -/
theorem markComplete_idempotent_no_duplicates :
    (∀ (store : List UserProgress) (u c lec : String) (rec : UserProgress),
        findProgress store u c = some rec → lec ∈ rec.lectureCompleted →
        updateUserCourseProgress u c lec store = (ProgressMsg.alreadyCompleted, store)) ∧
    (∀ (now : ℕ) (lec : String) (rec : CourseProgressRecord),
        lec ∈ rec.completedLectures →
        markLectureAsComplete now lec rec = (false, rec)) ∧
    (∀ (store : List UserProgress) (calls : List (String × String × String)),
        (∀ rec ∈ store, rec.lectureCompleted.Nodup) →
        ∀ rec ∈ calls.foldl markStep store, rec.lectureCompleted.Nodup) := by
  refine ⟨?_, ?_, ?_⟩
  · intro store u c lec rec hfind hmem
    unfold updateUserCourseProgress
    rw [hfind]
    dsimp only
    rw [if_pos hmem]
  · intro now lec rec hmem
    unfold markLectureAsComplete
    rw [if_pos hmem]
  · intro store calls
    induction calls generalizing store with
    | nil =>
      intro h rec hrec
      exact h rec hrec
    | cons call rest ih =>
      intro h rec hrec
      rw [List.foldl_cons] at hrec
      exact ih (markStep store call)
        (fun x hx => updateUserCourseProgress_preserves_nodup call.1 call.2.1 call.2.2 store h x hx)
        rec hrec

/-- Witness for C3: a repeated completion answers "already completed" without
mutation, the model method reports false, and replaying the same call twice
from the empty store leaves the single record duplicate-free. -/
theorem markComplete_idempotent_no_duplicates_witness :
    updateUserCourseProgress "user_123" "course_123" "lecture_456"
        [⟨"user_123", "course_123", ["lecture_456"]⟩] =
      (ProgressMsg.alreadyCompleted, [⟨"user_123", "course_123", ["lecture_456"]⟩]) ∧
    markLectureAsComplete 0 "lecture_1" ⟨"user_123", "course_123", ["lecture_1"], 0, 0⟩ =
      (false, ⟨"user_123", "course_123", ["lecture_1"], 0, 0⟩) ∧
    (["lecture_1"] : List String).Nodup := by
  refine ⟨?_, ?_, ?_⟩
  · exact markComplete_idempotent_no_duplicates.1 _ "user_123" "course_123" "lecture_456"
      ⟨"user_123", "course_123", ["lecture_456"]⟩ rfl (by decide)
  · exact markComplete_idempotent_no_duplicates.2.1 0 "lecture_1"
      ⟨"user_123", "course_123", ["lecture_1"], 0, 0⟩ (by decide)
  · exact markComplete_idempotent_no_duplicates.2.2 []
      [("user_123", "course_123", "lecture_1"), ("user_123", "course_123", "lecture_1")]
      (by simp) ⟨"user_123", "course_123", ["lecture_1"]⟩ (by decide)

/-- A chapter already holding two lectures with orders 1 and 2. -/
def sampleChapterTwo : Chapter :=
  ⟨"chapter_1", "Introduction to JavaScript", 1,
    [⟨"lecture_1", "What is JavaScript?", 15, "https://youtube.com/watch?v=123", true, 1⟩,
     ⟨"lecture_2", "JavaScript History", 10, "https://youtube.com/watch?v=456", false, 2⟩]⟩

/-- The course owning that chapter, with its educator. -/
def sampleCourseContent : Course :=
  ⟨"course_123", "JavaScript Fundamentals", 4999/100, 0, "educator_123",
    [sampleChapterTwo], [], []⟩

/-- An addLecture payload carrying a valid Vimeo URL. -/
def vimeoLectureData : LectureData :=
  ⟨"lecture_3", "JavaScript Functions", 25, "https://vimeo.com/123456789", true⟩

/-- An addLecture payload carrying a URL on a disallowed host. -/
def invalidLectureData : LectureData :=
  ⟨"lecture_3", "JavaScript Functions", 25, "https://invalid-host.com/video", true⟩

/-- Claim C10: with the course present, the caller authorized and the chapter
found, `addLecture` rejects any video URL failing the YouTube/Vimeo host
pattern with the Invalid video URL outcome and returns the store untouched
(`https://invalid-host.com/video` is such a URL), while a valid URL such as
`https://vimeo.com/123456789` is accepted and the new lecture is appended
with order = max(existing lecture orders in the chapter, default 0) + 1. -/
theorem addLecture_validates_url_and_orders
    (educatorId courseId chapterId : String) (lectureData : LectureData)
    (courses : List Course) (course : Course) (chapter : Chapter)
    (hc : findCourse courses courseId = some course)
    (he : course.educator = educatorId)
    (hch : course.courseContent.find? (fun ch => ch.chapterId == chapterId) = some chapter) :
    (isValidVideoUrl lectureData.lectureUrl = false →
      addLecture educatorId courseId chapterId lectureData courses =
        (AddLectureOutcome.invalidVideoUrl, courses)) ∧
    isValidVideoUrl "https://invalid-host.com/video" = false ∧
    isValidVideoUrl "https://vimeo.com/123456789" = true ∧
    (isValidVideoUrl lectureData.lectureUrl = true →
      addLecture educatorId courseId chapterId lectureData courses =
        (AddLectureOutcome.added
          ⟨lectureData.lectureId, lectureData.lectureTitle, lectureData.lectureDuration,
            lectureData.lectureUrl, lectureData.isPreviewFree, maxLectureOrder chapter + 1⟩,
          saveCourse courses
            { course with
              courseContent := pushLectureFirst course.courseContent chapterId
                ⟨lectureData.lectureId, lectureData.lectureTitle, lectureData.lectureDuration,
                  lectureData.lectureUrl, lectureData.isPreviewFree,
                  maxLectureOrder chapter + 1⟩ })) := by
  refine ⟨?_, by decide, by decide, ?_⟩
  · intro hv
    unfold addLecture
    rw [hc]
    dsimp only
    rw [if_neg (by simp [he]), hch]
    dsimp only
    rw [if_pos (Or.inr hv)]
  · intro hv
    have hne : lectureData.lectureUrl ≠ "" := by
      intro h0
      rw [h0] at hv
      exact absurd hv (by decide)
    unfold addLecture
    rw [hc]
    dsimp only
    rw [if_neg (by simp [he]), hch]
    dsimp only
    rw [if_neg (by simp [hne, hv])]

/-- Witness for C10: against the two-lecture chapter, the invalid-host URL is
rejected with the store untouched, and the Vimeo lecture lands with order
2 + 1 = 3. -/
theorem addLecture_validates_url_and_orders_witness :
    addLecture "educator_123" "course_123" "chapter_1" invalidLectureData
        [sampleCourseContent] =
      (AddLectureOutcome.invalidVideoUrl, [sampleCourseContent]) ∧
    (addLecture "educator_123" "course_123" "chapter_1" vimeoLectureData
        [sampleCourseContent]).1 =
      AddLectureOutcome.added
        ⟨"lecture_3", "JavaScript Functions", 25, "https://vimeo.com/123456789", true, 3⟩ := by
  have h1 := addLecture_validates_url_and_orders "educator_123" "course_123" "chapter_1"
    invalidLectureData [sampleCourseContent] sampleCourseContent sampleChapterTwo rfl rfl rfl
  have h2 := addLecture_validates_url_and_orders "educator_123" "course_123" "chapter_1"
    vimeoLectureData [sampleCourseContent] sampleCourseContent sampleChapterTwo rfl rfl rfl
  refine ⟨h1.1 (by decide), ?_⟩
  rw [h2.2.2.2 (by decide)]
  decide

/-- A free-preview lecture with its YouTube URL. -/
def sampleLectureFree : Lecture :=
  ⟨"lecture_1", "What is JavaScript?", 15, "https://youtube.com/watch?v=123", true, 1⟩

/-- A non-free lecture with its YouTube URL. -/
def sampleLecturePaid : Lecture :=
  ⟨"lecture_2", "JavaScript History", 10, "https://youtube.com/watch?v=456", false, 2⟩

/-- A course mixing a free and a non-free lecture in one chapter. -/
def samplePreviewCourse : Course :=
  ⟨"course_123", "JavaScript Fundamentals", 4999/100, 0, "educator_123",
    [⟨"chapter_1", "Introduction", 1, [sampleLectureFree, sampleLecturePaid]⟩], [], []⟩

/-- Claim C2: the lectures a viewer receives from `getCourseById` are exactly
the course's lectures transformed per lecture by `blankLecture` (the sorting
only permutes them): an enrolled viewer gets every lecture unmodified, a
non-enrolled viewer keeps the URL of every free-preview lecture and receives
the empty string for every other lecture; `getCourseWithPreview` serves
exactly the non-enrolled transformation. -/
theorem getCourseById_preview_url_policy (c : Course) (e : Bool) :
    (lecturesOf (getCourseById c e)).Perm ((lecturesOf c).map (blankLecture e)) ∧
    (∀ l : Lecture, blankLecture true l = l) ∧
    (∀ l : Lecture, l.isPreviewFree = true → blankLecture e l = l) ∧
    (∀ l : Lecture, l.isPreviewFree = false →
      blankLecture false l = { l with lectureUrl := "" }) ∧
    lecturesOf (getCourseWithPreview c) = (lecturesOf c).map (blankLecture false) := by
  refine ⟨?_, ?_, ?_, ?_, ?_⟩
  · unfold getCourseById lecturesOf
    dsimp only
    rw [List.flatMap_map]
    refine List.Perm.trans (List.Perm.flatMap_left _ (fun ch _ => List.mergeSort_perm _ _)) ?_
    refine List.Perm.trans (List.Perm.flatMap_right _ (List.mergeSort_perm _ _)) ?_
    rw [List.flatMap_map, List.map_flatMap]
  · intro l
    simp [blankLecture]
  · intro l h
    simp [blankLecture, h]
  · intro l h
    simp [blankLecture, h]
  · unfold getCourseWithPreview lecturesOf
    dsimp only
    rw [List.flatMap_map, List.map_flatMap]
    have hpt : ∀ l : Lecture,
        (if !l.isPreviewFree then { l with lectureUrl := "" } else l) = blankLecture false l := by
      intro l
      simp [blankLecture]
    simp only [hpt]

/-- Witness for C2 on the mixed-preview course viewed without enrollment. -/
theorem getCourseById_preview_url_policy_witness :
    (lecturesOf (getCourseById samplePreviewCourse false)).Perm
      ((lecturesOf samplePreviewCourse).map (blankLecture false)) ∧
    blankLecture false sampleLectureFree = sampleLectureFree ∧
    blankLecture false sampleLecturePaid = { sampleLecturePaid with lectureUrl := "" } ∧
    blankLecture true sampleLecturePaid = sampleLecturePaid :=
  ⟨(getCourseById_preview_url_policy samplePreviewCourse false).1,
   (getCourseById_preview_url_policy samplePreviewCourse false).2.2.1 sampleLectureFree rfl,
   (getCourseById_preview_url_policy samplePreviewCourse false).2.2.2.1 sampleLecturePaid rfl,
   (getCourseById_preview_url_policy samplePreviewCourse false).2.1 sampleLecturePaid⟩

end EdTech
